import Mathlib

set_option maxRecDepth 8000

/-!
Shallow embedding of the pomodoro plan generator of
`obsidian-pomodoro-planner` (source file `src/unnamed/part_000`, the current
plugin version: class `GeneratePomodoroPlan`, method `generatePomodoroPlan`
with its inner helper functions `willContinue`, `parseTimeOrCount`,
`parseTime`, `addMinutes`, `formatTime`, and the numeric-field `onChange`
handlers of `onOpen`).

Times are modelled as absolute wall-clock minutes (an `Int`): a JavaScript
`Date` value at minute granularity.  `parseTime` in the source mutates a
fresh `new Date()` with `setHours`/`setMinutes`, so the produced timestamp
keeps the calendar day of that clock read; we pass that clock read in
explicitly as `now` (in absolute minutes) and keep only its day component
`now.fdiv 1440 * 1440`, exactly what `setHours`/`setMinutes` preserve at
minute granularity (sub-minute parts are below the granularity of this
model).  JavaScript number parsing is modelled on the integer grammar the
program actually deals in: `Number(s)` on a decimal-digit string (empty
string yielding 0, an optional leading minus sign), and `parseInt(s)` as
the longest leading digit run (with optional leading minus sign), `NaN`
being `none`.
-/

def digitsToNat (l : List Char) : Nat :=
  l.foldl (fun a c => a * 10 + (c.toNat - 48)) 0

/-- Model of JavaScript `Number()` restricted to the integer grammar
(argument given as a character list): `""` is 0, a non-empty all-digit
string is its value, a minus sign followed by digits is the negated value;
anything else is NaN (`none`). -/
def jsNumber (s : List Char) : Option Int :=
  match s with
  | [] => some 0
  | '-' :: rest =>
      if rest ≠ [] ∧ rest.all Char.isDigit then some (-(digitsToNat rest : Int)) else none
  | l => if l.all Char.isDigit then some (digitsToNat l : Int) else none

/-- Split of a character list at every occurrence of a separator, the model
of JavaScript `String.prototype.split` with a one-character separator. -/
def splitOnChar (sep : Char) : List Char → List (List Char)
  | [] => [[]]
  | c :: rest =>
      if c = sep then [] :: splitOnChar sep rest
      else
        match splitOnChar sep rest with
        | [] => [[c]]
        | h :: t => (c :: h) :: t

/-- Model of JavaScript `parseInt()` on the same grammar: the longest
leading digit run (after an optional minus sign); `none` when no digit
leads. -/
def parseIntJS (s : String) : Option Int :=
  match s.data with
  | '-' :: rest =>
      match rest.takeWhile Char.isDigit with
      | [] => none
      | ds => some (-(digitsToNat ds : Int))
  | l =>
      match l.takeWhile Char.isDigit with
      | [] => none
      | ds => some ((digitsToNat ds : Int))

/-- Source `parseTime`: splits on `":"`, converts the first two parts with
`Number`, and writes them into a fresh `new Date()` via `setHours` /
`setMinutes`.  The result keeps the day of the clock read `now` and
replaces its hour and minute; out-of-range parts roll over exactly as
`Date` rolls them (plain minute arithmetic).  A missing or non-numeric
part makes the `Date` invalid (`none`). -/
def parseTime (now : Int) (time : String) : Option Int :=
  match (splitOnChar ':' time.data).map jsNumber with
  | some h :: some m :: _ => some (now.fdiv 1440 * 1440 + h * 60 + m)
  | _ => none

/-- End condition: the source's `Date | number` union for `endTimeOrCount`. -/
inductive TimeOrCount where
  | count (n : Int)
  | time (t : Int)
deriving DecidableEq, Repr

/-- Source `parseTimeOrCount`: empty string is 0; else try `parseTime`;
else try `parseInt`; else notify and return 0. -/
def parseTimeOrCount (now : Int) (timeOrCount : String) : TimeOrCount :=
  if timeOrCount = "" then .count 0
  else
    match parseTime now timeOrCount with
    | some t => .time t
    | none =>
        match parseIntJS timeOrCount with
        | some c => .count c
        | none => .count 0

/-- The branch of `parseTimeOrCount` that fires `new Notice('Invalid time
or count format')`: true exactly when the final fallback is taken. -/
def invalidEndNotice (now : Int) (timeOrCount : String) : Bool :=
  if timeOrCount = "" then false
  else
    match parseTime now timeOrCount with
    | some _ => false
    | none =>
        match parseIntJS timeOrCount with
        | some _ => false
        | none => true

/-- Source `addMinutes`: `Date` minute arithmetic, plain addition on
absolute minutes. -/
def addMinutes (time : Int) (minutes : Int) : Int :=
  time + minutes

def pad2 (s : String) : String :=
  if s.length < 2 then String.mk (List.replicate (2 - s.length) '0') ++ s else s

/-- Source `formatTime`: `getHours`/`getMinutes` of the timestamp,
zero-padded to two digits and joined with `":"`. -/
def formatTime (time : Int) : String :=
  pad2 (toString ((time.fdiv 60).emod 24)) ++ ":" ++ pad2 (toString (time.emod 60))

/-- The `PomodoroSettings` interface of the source. -/
structure PomodoroSettings where
  pomodoro : Int
  shortBreak : Int
  longBreak : Int
  group : Int
  includeStats : Bool
  includeShortBreak : Bool
  includeLongBreak : Bool
deriving DecidableEq, Repr

/-- The source's `DEFAULT_SETTINGS`. -/
def DEFAULT_SETTINGS : PomodoroSettings :=
  { pomodoro := 25, shortBreak := 5, longBreak := 15, group := 4,
    includeStats := true, includeShortBreak := false, includeLongBreak := true }

/-- Source `willContinue`: count-kind compares the pomodoro counter,
time-kind compares the candidate timestamp (both inclusive). -/
def willContinue (currentTime : Int) (totalPomodoros : Int)
    (endTimeOrCount : TimeOrCount) : Bool :=
  match endTimeOrCount with
  | .count n => decide (totalPomodoros ≤ n)
  | .time t => decide (currentTime ≤ t)

example : jsNumber ['0', '9'] = some 9 := by decide
example : jsNumber ['a', 'b', 'c'] = none := by decide
example : parseIntJS "abc" = none := by decide
example : parseIntJS "5" = some 5 := by decide
example : parseTime 0 "09:30" = some 570 := by decide
example : parseTime 0 "5" = none := by decide
example : parseTimeOrCount 0 "5" = .count 5 := by decide
example : parseTimeOrCount 0 "09:30" = .time 570 := by decide
example : formatTime 565 = "09:25" := by decide

/-- One emitted schedule line (the structured content behind each markdown
append of the source loop). -/
inductive PlanLine where
  | pomodoro (idx : Int) (startT : Int) (endT : Int)
  | shortRest (startT : Int) (endT : Int)
  | longRest (startT : Int) (endT : Int)
deriving DecidableEq, Repr

/-- Markdown rendering of one line, exactly the template strings of the
source loop (`- [ ] HH:MM - HH:MM <label>\n`). -/
def renderLine : PlanLine → String
  | .pomodoro n s e =>
      "- [ ] " ++ formatTime s ++ " - " ++ formatTime e ++ " Pomodoro #" ++ toString n ++ "\n"
  | .shortRest s e =>
      "- [ ] " ++ formatTime s ++ " - " ++ formatTime e ++ " Short Break\n"
  | .longRest s e =>
      "- [ ] " ++ formatTime s ++ " - " ++ formatTime e ++ " Long Break\n"

def isPomodoroLine : PlanLine → Bool
  | .pomodoro _ _ _ => true
  | _ => false

/-- The mutable locals of `generatePomodoroPlan`'s loop, with the markdown
accumulation kept structured as the list of emitted lines. -/
structure GenState where
  currentTime : Int
  groupCount : Int
  totalRestTime : Int
  pomodoroCount : Int
  lines : List PlanLine
deriving DecidableEq, Repr

/-- Loop body, first part: emit the `Pomodoro #n` line, then advance
`currentTime`, `pomodoroCount` and `groupCount` (source lines 100–104). -/
def emitPomodoro (s : PomodoroSettings) (st : GenState) : GenState :=
  { st with
    lines := st.lines ++ [.pomodoro st.pomodoroCount st.currentTime (addMinutes st.currentTime s.pomodoro)],
    currentTime := addMinutes st.currentTime s.pomodoro,
    pomodoroCount := st.pomodoroCount + 1,
    groupCount := st.groupCount + 1 }

/-- Long-break arm of the loop body: conditionally emit the `Long Break`
line, advance the clock, accumulate rest, reset the group counter
(source lines 110–114). -/
def applyLongBreak (s : PomodoroSettings) (st : GenState) : GenState :=
  { st with
    lines := if s.includeLongBreak then st.lines ++ [.longRest st.currentTime (addMinutes st.currentTime s.longBreak)] else st.lines,
    currentTime := addMinutes st.currentTime s.longBreak,
    totalRestTime := st.totalRestTime + s.longBreak,
    groupCount := 0 }

/-- Short-break arm of the loop body: conditionally emit the `Short Break`
line, advance the clock, accumulate rest (source lines 120–124). -/
def applyShortBreak (s : PomodoroSettings) (st : GenState) : GenState :=
  { st with
    lines := if s.includeShortBreak then st.lines ++ [.shortRest st.currentTime (addMinutes st.currentTime s.shortBreak)] else st.lines,
    currentTime := addMinutes st.currentTime s.shortBreak,
    totalRestTime := st.totalRestTime + s.shortBreak }

/-- The `while` loop of `generatePomodoroPlan` (source lines 97–127), with
an explicit fuel bound: `none` means the fuel ran out before the loop
finished on its own. -/
def genLoop (s : PomodoroSettings) (endC : TimeOrCount) : Nat → GenState → Option GenState
  | 0, _ => none
  | fuel + 1, st =>
      if willContinue (addMinutes st.currentTime s.pomodoro) st.pomodoroCount endC then
        let st1 := emitPomodoro s st
        if st1.groupCount = s.group then
          if !willContinue (addMinutes st1.currentTime (s.longBreak + s.pomodoro)) st1.pomodoroCount endC then
            some st1
          else
            genLoop s endC fuel (applyLongBreak s st1)
        else
          if !willContinue (addMinutes st1.currentTime (s.pomodoro + s.shortBreak)) st1.pomodoroCount endC then
            some st1
          else
            genLoop s endC fuel (applyShortBreak s st1)
      else
        some st

/-- Initial loop state (source lines 92–95): clock at the start time,
`groupCount = 0`, `totalRestTime = 0`, `pomodoroCount = 1`, nothing
emitted. -/
def initState (startTime : Int) : GenState :=
  { currentTime := startTime, groupCount := 0, totalRestTime := 0,
    pomodoroCount := 1, lines := [] }

def runPlan (s : PomodoroSettings) (endC : TimeOrCount) (fuel : Nat) (startTime : Int) : Option GenState :=
  genLoop s endC fuel (initState startTime)

/-- The work total the stats block is computed from
(`pomodoro * (pomodoroCount - 1)`, source lines 136–137). -/
def totalWorkMinutes (s : PomodoroSettings) (st : GenState) : Int :=
  s.pomodoro * (st.pomodoroCount - 1)

/-- The duration formatting the stats block applies to both totals
(source lines 143–150 and 153–160): `Math.floor(x/60)` hours and `x % 60`
minutes (JavaScript `%` truncates, which is `Int.tmod`). -/
def formatDuration (total : Int) : String :=
  let hours := total.fdiv 60
  let minutes := Int.tmod total 60
  if hours > 0 then
    (toString hours ++ " hours") ++ (if minutes > 0 then ", " ++ toString minutes ++ " minutes" else "")
  else
    toString minutes ++ " minutes"

/-- The stats block `info` (source lines 140–161). -/
def statsInfo (s : PomodoroSettings) (st : GenState) : String :=
  "\n\n" ++ "  Total pomodoros: " ++ toString (st.pomodoroCount - 1) ++ "\n"
    ++ "  Total work time: " ++ formatDuration (totalWorkMinutes s st) ++ "\n"
    ++ "  Total rest time: " ++ formatDuration st.totalRestTime ++ "\n"

def renderLines (lines : List PlanLine) : String :=
  String.join (lines.map renderLine)

/-- Final value of `this.resultMarkdown`: the accumulated schedule lines;
when at least one pomodoro was emitted and `includeStats` is set, the stats
block is appended (source lines 129–164; on `pomodoroCount - 1 == 0` the
method returns early with the accumulated — empty — markdown). -/
def assembleMarkdown (s : PomodoroSettings) (st : GenState) : String :=
  let md := renderLines st.lines
  if st.pomodoroCount - 1 = 0 then md
  else if s.includeStats then md ++ statsInfo s st else md

def generateFromCond (s : PomodoroSettings) (endC : TimeOrCount) (fuel : Nat) (startTime : Int) : Option String :=
  (runPlan s endC fuel startTime).map (assembleMarkdown s)

/-- Whole `generatePomodoroPlan` on its string inputs.  `now1` and `now2`
are the two internal `new Date()` reads (one per `parseTime` call: the
start parse and, inside `parseTimeOrCount`, the end parse), in absolute
minutes.  A start string that does not parse makes every `Date` value NaN
in the source; that degenerate path is outside this model (`none`). -/
def generatePomodoroPlan (now1 now2 : Int) (fuel : Nat) (start endSpec : String) (s : PomodoroSettings) : Option String :=
  match parseTime now1 start with
  | some startTime => generateFromCond s (parseTimeOrCount now2 endSpec) fuel startTime
  | none => none

/-- Numeric-field `onChange` handler for the pomodoro length field
(source lines 250–259): apply the edit and regenerate only when
`parseInt` succeeds.  The `Bool` records whether `generatePomodoroPlan`
was re-triggered. -/
def onPomodoroEdit (settings : PomodoroSettings) (value : String) : PomodoroSettings × Bool :=
  match parseIntJS value with
  | some n => ({ settings with pomodoro := n }, true)
  | none => (settings, false)

/-- Numeric-field `onChange` handler for the short-break field
(source lines 264–273). -/
def onShortBreakEdit (settings : PomodoroSettings) (value : String) : PomodoroSettings × Bool :=
  match parseIntJS value with
  | some n => ({ settings with shortBreak := n }, true)
  | none => (settings, false)

/-- Numeric-field `onChange` handler for the long-break field
(source lines 278–287). -/
def onLongBreakEdit (settings : PomodoroSettings) (value : String) : PomodoroSettings × Bool :=
  match parseIntJS value with
  | some n => ({ settings with longBreak := n }, true)
  | none => (settings, false)

/-- Numeric-field `onChange` handler for the group-size field
(source lines 292–301). -/
def onGroupEdit (settings : PomodoroSettings) (value : String) : PomodoroSettings × Bool :=
  match parseIntJS value with
  | some n => ({ settings with group := n }, true)
  | none => (settings, false)

/-- Full markdown result actually produced for Example 1 inputs
(start `"09:00"`, end `"5"`, default settings). -/
def c1Markdown : String :=
  "- [ ] 09:00 - 09:25 Pomodoro #1\n- [ ] 09:30 - 09:55 Pomodoro #2\n" ++
  "- [ ] 10:00 - 10:25 Pomodoro #3\n- [ ] 10:30 - 10:55 Pomodoro #4\n" ++
  "- [ ] 10:55 - 11:10 Long Break\n- [ ] 11:10 - 11:35 Pomodoro #5\n" ++
  "\n\n  Total pomodoros: 5\n  Total work time: 2 hours, 5 minutes\n" ++
  "  Total rest time: 30 minutes\n"

/-- Projection of the loop state onto everything the break-line toggles
cannot touch: the clock, the counters, the rest total, and the emitted
Pomodoro lines with their times. -/
def toggleView (st : GenState) : Int × Int × Int × Int × List PlanLine :=
  (st.currentTime, st.groupCount, st.totalRestTime, st.pomodoroCount,
    st.lines.filter isPomodoroLine)

/-!  Helper lemmas shared by several claims.  -/

/-- A count-kind end condition of value 0 stops the loop before its first
iteration, leaving the initial state and an empty markdown result. -/
theorem generateFromCond_count_zero (s : PomodoroSettings) (startT : Int) (fuel : Nat)
    (hf : 1 ≤ fuel) :
    runPlan s (.count 0) fuel startT = some (initState startT) ∧
    generateFromCond s (.count 0) fuel startT = some "" := by
  obtain ⟨k, rfl⟩ : ∃ k, fuel = k + 1 := ⟨fuel - 1, by omega⟩
  have h1 : runPlan s (.count 0) (k + 1) startT = some (initState startT) := by
    simp [runPlan, genLoop, willContinue, initState]
  refine ⟨h1, ?_⟩
  rw [generateFromCond, h1]
  simp [assembleMarkdown, initState, renderLines, String.join]

/-!  Claim theorems.  -/

/-- C1 (counterexample): on Example 1 inputs the stats block does not
contain the line `Total rest time: 15 minutes` — the loop adds the short
break to `totalRestTime` even when the short-break line is suppressed, so
the rest total is 3·5 + 15 = 30 minutes. -/
theorem C1_counterexample :
    generatePomodoroPlan 0 0 100 "09:00" "5" DEFAULT_SETTINGS = some c1Markdown ∧
    ¬ ("  Total rest time: 15 minutes").data ∈ splitOnChar '\n' c1Markdown.data := by
  decide

/-- C1 (amended): for start `"09:00"`, end `"5"`, pomodoro 25, short break
5, long break 15, group 4, short-break lines off, long-break lines on,
stats on, the generator emits exactly 5 Pomodoro lines, exactly one Long
Break line immediately after the 4th Pomodoro line, zero Short Break
lines, and a stats block containing `Total pomodoros: 5`,
`Total work time: 2 hours, 5 minutes`, and `Total rest time: 30 minutes`. -/
theorem C1_example_plan :
    generatePomodoroPlan 0 0 100 "09:00" "5" DEFAULT_SETTINGS = some c1Markdown ∧
    (runPlan DEFAULT_SETTINGS (parseTimeOrCount 0 "5") 100 540).map GenState.lines =
      some [.pomodoro 1 540 565, .pomodoro 2 570 595, .pomodoro 3 600 625,
            .pomodoro 4 630 655, .longRest 655 670, .pomodoro 5 670 695] ∧
    ("  Total pomodoros: 5").data ∈ splitOnChar '\n' c1Markdown.data ∧
    ("  Total work time: 2 hours, 5 minutes").data ∈ splitOnChar '\n' c1Markdown.data ∧
    ("  Total rest time: 30 minutes").data ∈ splitOnChar '\n' c1Markdown.data := by
  decide

/-- C3: a count-kind end condition of value 0 yields the empty plan for
every start time and settings — no schedule lines, `pomodoroCount - 1 = 0`,
and no stats block even when `includeStats` is set. -/
theorem count_zero_yields_empty_plan (s : PomodoroSettings) (startT : Int) (fuel : Nat)
    (hf : 1 ≤ fuel) :
    generateFromCond s (.count 0) fuel startT = some "" ∧
    (runPlan s (.count 0) fuel startT).map (fun r => (r.pomodoroCount - 1, r.lines)) =
      some ((0 : Int), ([] : List PlanLine)) := by
  obtain ⟨h1, h2⟩ := generateFromCond_count_zero s startT fuel hf
  refine ⟨h2, ?_⟩
  rw [h1]
  simp [initState]

/-- C3 witness at concrete inputs. -/
theorem count_zero_yields_empty_plan_witness :
    1 ≤ 1 ∧
    (generateFromCond DEFAULT_SETTINGS (.count 0) 1 540 = some "" ∧
      (runPlan DEFAULT_SETTINGS (.count 0) 1 540).map (fun r => (r.pomodoroCount - 1, r.lines)) =
        some ((0 : Int), ([] : List PlanLine))) :=
  ⟨by decide, count_zero_yields_empty_plan DEFAULT_SETTINGS 540 1 (by decide)⟩

/-- C4 (counterexample): the empty string parses neither as a time nor as
an integer, yet the early `!timeOrCount` return of `parseTimeOrCount`
yields count-kind 0 without any notification — the notice branch does not
fire on it. -/
theorem C4_counterexample :
    parseTime 0 "" = none ∧ parseIntJS "" = none ∧
    parseTimeOrCount 0 "" = .count 0 ∧ invalidEndNotice 0 "" = false := by
  decide

/-- C4 (amended): every nonempty end-spec string that parses neither as a
time nor as an integer makes `parseTimeOrCount` take the notifying
fallback and return count-kind 0; generation then proceeds and yields the
empty plan, the generator returning a value rather than failing (the empty
string also yields count-kind 0 and an empty plan, but without the
notification). -/
theorem invalid_end_spec_recovers (now : Int) (endSpec : String) (hne : endSpec ≠ "")
    (ht : parseTime now endSpec = none) (hi : parseIntJS endSpec = none)
    (s : PomodoroSettings) (startT : Int) (fuel : Nat) (hf : 1 ≤ fuel) :
    invalidEndNotice now endSpec = true ∧
    parseTimeOrCount now endSpec = .count 0 ∧
    generateFromCond s (parseTimeOrCount now endSpec) fuel startT = some "" ∧
    generatePomodoroPlan now now fuel "09:00" endSpec s = some "" := by
  have hcond : parseTimeOrCount now endSpec = .count 0 := by
    simp [parseTimeOrCount, hne, ht, hi]
  have hgen : ∀ t : Int, generateFromCond s (parseTimeOrCount now endSpec) fuel t = some "" := by
    intro t
    rw [hcond]
    exact (generateFromCond_count_zero s t fuel hf).2
  have hsplit : (splitOnChar ':' "09:00".data).map jsNumber = [some 9, some 0] := by decide
  have hstart : parseTime now "09:00" = some (now.fdiv 1440 * 1440 + 9 * 60 + 0) := by
    rw [parseTime, hsplit]
  refine ⟨?_, hcond, hgen startT, ?_⟩
  · simp [invalidEndNotice, hne, ht, hi]
  · rw [generatePomodoroPlan, hstart]
    exact hgen _

/-- C4 witness at the spec's Example 3 input `"abc"`. -/
theorem invalid_end_spec_recovers_witness :
    ("abc" : String) ≠ "" ∧ parseTime 0 "abc" = none ∧ parseIntJS "abc" = none ∧ 1 ≤ 1 ∧
    (invalidEndNotice 0 "abc" = true ∧
      parseTimeOrCount 0 "abc" = .count 0 ∧
      generateFromCond DEFAULT_SETTINGS (parseTimeOrCount 0 "abc") 1 540 = some "" ∧
      generatePomodoroPlan 0 0 1 "09:00" "abc" DEFAULT_SETTINGS = some "") :=
  ⟨by decide, by decide, by decide, by decide,
    invalid_end_spec_recovers 0 "abc" (by decide) (by decide) (by decide)
      DEFAULT_SETTINGS 540 1 (by decide)⟩

/-- C6: for a time-kind end the continuation boundary is inclusive and is
checked on the candidate end time of the next pomodoro: with start
`"09:00"`, end `"09:30"` and a 25-minute pomodoro the first interval is
scheduled (09:25 ≤ 09:30, and a candidate exactly equal to the end still
continues), exactly one Pomodoro line `09:00 - 09:25` is emitted, the
second interval's look-ahead check fails, and `pomodoroCount - 1 = 1`. -/
theorem C6_inclusive_time_boundary :
    parseTimeOrCount 0 "09:30" = .time 570 ∧
    willContinue (addMinutes 540 25) 1 (.time 570) = true ∧
    willContinue 570 1 (.time 570) = true ∧
    willContinue (addMinutes 565 (25 + 5)) 2 (.time 570) = false ∧
    (runPlan DEFAULT_SETTINGS (parseTimeOrCount 0 "09:30") 100 540).map GenState.lines =
      some [.pomodoro 1 540 565] ∧
    (runPlan DEFAULT_SETTINGS (parseTimeOrCount 0 "09:30") 100 540).map
      (fun r => r.pomodoroCount - 1) = some 1 ∧
    renderLine (.pomodoro 1 540 565) = "- [ ] 09:00 - 09:25 Pomodoro #1\n" := by
  decide

/-- C9: an edit string that does not parse as an integer is discarded by
every numeric-field handler — the settings value is retained and no plan
regeneration is triggered. -/
theorem nonnumeric_edit_ignored (s : PomodoroSettings) (value : String)
    (h : parseIntJS value = none) :
    onPomodoroEdit s value = (s, false) ∧
    onShortBreakEdit s value = (s, false) ∧
    onLongBreakEdit s value = (s, false) ∧
    onGroupEdit s value = (s, false) := by
  simp [onPomodoroEdit, onShortBreakEdit, onLongBreakEdit, onGroupEdit, h]

/-- Emitting a pomodoro line preserves the difference between the
pomodoro counter and the number of emitted pomodoro lines. -/
theorem diff_emitPomodoro (s : PomodoroSettings) (st : GenState) :
    (emitPomodoro s st).pomodoroCount - ((emitPomodoro s st).lines.countP isPomodoroLine : Int) =
      st.pomodoroCount - (st.lines.countP isPomodoroLine : Int) := by
  simp [emitPomodoro, List.countP_append, List.countP_cons, isPomodoroLine]

/-- The long-break arm neither counts a pomodoro nor emits a pomodoro
line. -/
theorem diff_applyLongBreak (s : PomodoroSettings) (st : GenState) :
    (applyLongBreak s st).pomodoroCount - ((applyLongBreak s st).lines.countP isPomodoroLine : Int) =
      st.pomodoroCount - (st.lines.countP isPomodoroLine : Int) := by
  by_cases hb : s.includeLongBreak <;>
    simp [applyLongBreak, hb, List.countP_append, List.countP_cons, isPomodoroLine]

/-- The short-break arm neither counts a pomodoro nor emits a pomodoro
line. -/
theorem diff_applyShortBreak (s : PomodoroSettings) (st : GenState) :
    (applyShortBreak s st).pomodoroCount - ((applyShortBreak s st).lines.countP isPomodoroLine : Int) =
      st.pomodoroCount - (st.lines.countP isPomodoroLine : Int) := by
  by_cases hb : s.includeShortBreak <;>
    simp [applyShortBreak, hb, List.countP_append, List.countP_cons, isPomodoroLine]

/-- Loop invariant: the difference between the pomodoro counter and the
number of emitted pomodoro lines never changes across the loop. -/
theorem genLoop_count_lines (s : PomodoroSettings) (endC : TimeOrCount) :
    ∀ (fuel : Nat) (st r : GenState), genLoop s endC fuel st = some r →
      r.pomodoroCount - (r.lines.countP isPomodoroLine : Int) =
        st.pomodoroCount - (st.lines.countP isPomodoroLine : Int) := by
  intro fuel
  induction fuel with
  | zero => intro st r h; simp [genLoop] at h
  | succ n ih =>
    intro st r h
    simp only [genLoop] at h
    split at h
    · split at h
      · split at h
        · obtain rfl : emitPomodoro s st = r := by simpa using h
          exact diff_emitPomodoro s st
        · have := ih _ _ h
          rw [this, diff_applyLongBreak, diff_emitPomodoro]
      · split at h
        · obtain rfl : emitPomodoro s st = r := by simpa using h
          exact diff_emitPomodoro s st
        · have := ih _ _ h
          rw [this, diff_applyShortBreak, diff_emitPomodoro]
    · obtain rfl : st = r := by simpa using h
      rfl

/-- C7: whenever the loop completes, the reported work-interval count
`pomodoroCount - 1` equals the number of `Pomodoro #` lines actually
emitted, and the work total feeding the stats block equals
`pomodoro` times that number of lines. -/
theorem work_interval_count_correct (s : PomodoroSettings) (endC : TimeOrCount)
    (fuel : Nat) (startT : Int) (r : GenState)
    (h : runPlan s endC fuel startT = some r) :
    r.pomodoroCount - 1 = (r.lines.countP isPomodoroLine : Int) ∧
    totalWorkMinutes s r = s.pomodoro * (r.lines.countP isPomodoroLine : Int) := by
  have hinv := genLoop_count_lines s endC fuel (initState startT) r h
  simp [initState] at hinv
  have h1 : r.pomodoroCount - 1 = (r.lines.countP isPomodoroLine : Int) := by omega
  exact ⟨h1, by rw [totalWorkMinutes, h1]⟩

/-- C7 witness at concrete inputs (count-kind end of 1). -/
theorem work_interval_count_correct_witness :
    runPlan DEFAULT_SETTINGS (.count 1) 10 0 =
      some { currentTime := 25, groupCount := 1, totalRestTime := 0,
             pomodoroCount := 2, lines := [.pomodoro 1 0 25] } ∧
    (({ currentTime := 25, groupCount := 1, totalRestTime := 0,
        pomodoroCount := 2, lines := [.pomodoro 1 0 25] } : GenState).pomodoroCount - 1 =
      ((([.pomodoro 1 0 25] : List PlanLine).countP isPomodoroLine) : Int) ∧
     totalWorkMinutes DEFAULT_SETTINGS
        { currentTime := 25, groupCount := 1, totalRestTime := 0,
          pomodoroCount := 2, lines := [.pomodoro 1 0 25] } =
       DEFAULT_SETTINGS.pomodoro * ((([.pomodoro 1 0 25] : List PlanLine).countP isPomodoroLine) : Int)) :=
  ⟨by decide, work_interval_count_correct DEFAULT_SETTINGS (.count 1) 10 0 _ (by decide)⟩

/-- After the long-break arm runs, the next loop guard is exactly the
look-ahead check that admitted the break (`currentTime + longBreak +
pomodoro`, with the already-incremented counter). -/
theorem guard_after_longBreak (s : PomodoroSettings) (endC : TimeOrCount) (st : GenState)
    (h : willContinue (addMinutes st.currentTime (s.longBreak + s.pomodoro)) st.pomodoroCount endC = true) :
    willContinue (addMinutes (applyLongBreak s st).currentTime s.pomodoro)
      (applyLongBreak s st).pomodoroCount endC = true := by
  have harith : addMinutes (applyLongBreak s st).currentTime s.pomodoro =
      addMinutes st.currentTime (s.longBreak + s.pomodoro) := by
    simp [applyLongBreak, addMinutes]
    ring
  rw [harith]
  simpa [applyLongBreak] using h

/-- After the short-break arm runs, the next loop guard is exactly the
look-ahead check that admitted the break (`currentTime + pomodoro +
shortBreak`). -/
theorem guard_after_shortBreak (s : PomodoroSettings) (endC : TimeOrCount) (st : GenState)
    (h : willContinue (addMinutes st.currentTime (s.pomodoro + s.shortBreak)) st.pomodoroCount endC = true) :
    willContinue (addMinutes (applyShortBreak s st).currentTime s.pomodoro)
      (applyShortBreak s st).pomodoroCount endC = true := by
  have harith : addMinutes (applyShortBreak s st).currentTime s.pomodoro =
      addMinutes st.currentTime (s.pomodoro + s.shortBreak) := by
    simp [applyShortBreak, addMinutes]
    ring
  rw [harith]
  simpa [applyShortBreak] using h

/-- Loop invariant for the look-ahead property: provided that whenever the
accumulated output currently ends in a break line the loop guard still
holds, a completed loop never leaves a break line last. -/
theorem genLoop_no_trailing_break (s : PomodoroSettings) (endC : TimeOrCount) :
    ∀ (fuel : Nat) (st r : GenState),
      (∀ x, st.lines.getLast? = some x → isPomodoroLine x = false →
        willContinue (addMinutes st.currentTime s.pomodoro) st.pomodoroCount endC = true) →
      genLoop s endC fuel st = some r →
      ∀ x, r.lines.getLast? = some x → isPomodoroLine x = true := by
  intro fuel
  induction fuel with
  | zero => intro st r _ h; simp [genLoop] at h
  | succ n ih =>
    intro st r hI h
    simp only [genLoop] at h
    split at h
    · split at h
      · split at h
        · obtain rfl : emitPomodoro s st = r := by simpa using h
          intro x hx
          simp [emitPomodoro, List.getLast?_concat] at hx
          rw [← hx]
          rfl
        · rename_i hw
          refine ih _ _ ?_ h
          intro x _ _
          exact guard_after_longBreak s endC (emitPomodoro s st) (by simpa using hw)
      · split at h
        · obtain rfl : emitPomodoro s st = r := by simpa using h
          intro x hx
          simp [emitPomodoro, List.getLast?_concat] at hx
          rw [← hx]
          rfl
        · rename_i hw
          refine ih _ _ ?_ h
          intro x _ _
          exact guard_after_shortBreak s endC (emitPomodoro s st) (by simpa using hw)
    · rename_i hc
      obtain rfl : st = r := by simpa using h
      intro x hx
      by_contra hb
      exact hc (hI x hx (by simpa using hb))

/-- C2: for every input, whenever the generation loop completes, the last
emitted line is never a Short Break or Long Break line, and every emitted
break line is followed by a later Pomodoro line. -/
theorem no_trailing_break (s : PomodoroSettings) (endC : TimeOrCount) (fuel : Nat)
    (startT : Int) (r : GenState) (_hp : 0 < s.pomodoro)
    (h : runPlan s endC fuel startT = some r) :
    (∀ x, r.lines.getLast? = some x → isPomodoroLine x = true) ∧
    (∀ i (hi : i < r.lines.length), isPomodoroLine (r.lines.get ⟨i, hi⟩) = false →
      ∃ j, i < j ∧ ∃ hj : j < r.lines.length, isPomodoroLine (r.lines.get ⟨j, hj⟩) = true) := by
  have hlast := genLoop_no_trailing_break s endC fuel (initState startT) r
    (by intro x hx; simp [initState] at hx) h
  refine ⟨hlast, ?_⟩
  intro i hi hfalse
  have hne : r.lines ≠ [] := by
    intro he
    rw [he] at hi
    simp at hi
  have hplast : isPomodoroLine (r.lines.getLast hne) = true :=
    hlast _ (List.getLast?_eq_getLast _ hne)
  have hlen : r.lines.length - 1 < r.lines.length := by omega
  have hget : r.lines.get ⟨r.lines.length - 1, hlen⟩ = r.lines.getLast hne := by
    rw [List.getLast_eq_getElem]
    rfl
  refine ⟨r.lines.length - 1, ?_, hlen, by rw [hget]; exact hplast⟩
  rcases Nat.lt_or_ge i (r.lines.length - 1) with hlt | hge
  · exact hlt
  · exfalso
    have hie : i = r.lines.length - 1 := by omega
    have heq : r.lines.get ⟨i, hi⟩ = r.lines.get ⟨r.lines.length - 1, hlen⟩ := by
      congr 1
      exact Fin.ext hie
    rw [heq, hget, hplast] at hfalse
    exact Bool.noConfusion hfalse

/-- C2 witness at concrete inputs (count-kind end of 1). -/
theorem no_trailing_break_witness :
    (0 : Int) < DEFAULT_SETTINGS.pomodoro ∧
    ((∀ x, ([PlanLine.pomodoro 1 0 25] : List PlanLine).getLast? = some x →
        isPomodoroLine x = true) ∧
      (∀ i (hi : i < ([PlanLine.pomodoro 1 0 25] : List PlanLine).length),
        isPomodoroLine (([PlanLine.pomodoro 1 0 25] : List PlanLine).get ⟨i, hi⟩) = false →
        ∃ j, i < j ∧ ∃ hj : j < ([PlanLine.pomodoro 1 0 25] : List PlanLine).length,
          isPomodoroLine (([PlanLine.pomodoro 1 0 25] : List PlanLine).get ⟨j, hj⟩) = true)) :=
  ⟨by decide, no_trailing_break DEFAULT_SETTINGS (.count 1) 10 0
      { currentTime := 25, groupCount := 1, totalRestTime := 0, pomodoroCount := 2,
        lines := [PlanLine.pomodoro 1 0 25] } (by decide) (by decide)⟩

/-- C9 witness at the spec's Example 4 input `"xyz"`. -/
theorem nonnumeric_edit_ignored_witness :
    parseIntJS "xyz" = none ∧
    (onPomodoroEdit DEFAULT_SETTINGS "xyz" = (DEFAULT_SETTINGS, false) ∧
      onShortBreakEdit DEFAULT_SETTINGS "xyz" = (DEFAULT_SETTINGS, false) ∧
      onLongBreakEdit DEFAULT_SETTINGS "xyz" = (DEFAULT_SETTINGS, false) ∧
      onGroupEdit DEFAULT_SETTINGS "xyz" = (DEFAULT_SETTINGS, false)) :=
  ⟨by decide, nonnumeric_edit_ignored DEFAULT_SETTINGS "xyz" (by decide)⟩

/-- Fuel bound for a count-kind end: every iteration increments the
pomodoro counter, which is bounded above by the target count. -/
theorem genLoop_terminates_count (s : PomodoroSettings) (n : Int) :
    ∀ (fuel : Nat) (st : GenState),
      (n + 1 - st.pomodoroCount).toNat < fuel →
      ∃ r, genLoop s (.count n) fuel st = some r := by
  intro fuel
  induction fuel with
  | zero => intro st h; omega
  | succ k ih =>
    intro st hm
    by_cases hc : willContinue (addMinutes st.currentTime s.pomodoro) st.pomodoroCount (.count n) = true
    · have hcount : st.pomodoroCount ≤ n := by simpa [willContinue] using hc
      by_cases hg : (emitPomodoro s st).groupCount = s.group
      · by_cases hw : (!willContinue (addMinutes (emitPomodoro s st).currentTime (s.longBreak + s.pomodoro))
            (emitPomodoro s st).pomodoroCount (.count n)) = true
        · exact ⟨emitPomodoro s st, by simp [genLoop, hc, hg, hw]⟩
        · have hmeas : (n + 1 - (applyLongBreak s (emitPomodoro s st)).pomodoroCount).toNat < k := by
            simp only [applyLongBreak, emitPomodoro]
            omega
          obtain ⟨r, hr⟩ := ih _ hmeas
          exact ⟨r, by simp [genLoop, hc, hg, hw, hr]⟩
      · by_cases hw : (!willContinue (addMinutes (emitPomodoro s st).currentTime (s.pomodoro + s.shortBreak))
            (emitPomodoro s st).pomodoroCount (.count n)) = true
        · exact ⟨emitPomodoro s st, by simp [genLoop, hc, hg, hw]⟩
        · have hmeas : (n + 1 - (applyShortBreak s (emitPomodoro s st)).pomodoroCount).toNat < k := by
            simp only [applyShortBreak, emitPomodoro]
            omega
          obtain ⟨r, hr⟩ := ih _ hmeas
          exact ⟨r, by simp [genLoop, hc, hg, hw, hr]⟩
    · exact ⟨st, by simp [genLoop, hc]⟩

/-- Fuel bound for a time-kind end: with a positive pomodoro length and
nonnegative break lengths, every iteration strictly advances the clock,
which is bounded above by the end time. -/
theorem genLoop_terminates_time (s : PomodoroSettings) (t : Int)
    (hp : 0 < s.pomodoro) (hs : 0 ≤ s.shortBreak) (hl : 0 ≤ s.longBreak) :
    ∀ (fuel : Nat) (st : GenState),
      (t + 1 - (st.currentTime + s.pomodoro)).toNat < fuel →
      ∃ r, genLoop s (.time t) fuel st = some r := by
  intro fuel
  induction fuel with
  | zero => intro st h; omega
  | succ k ih =>
    intro st hm
    by_cases hc : willContinue (addMinutes st.currentTime s.pomodoro) st.pomodoroCount (.time t) = true
    · have htime : st.currentTime + s.pomodoro ≤ t := by simpa [willContinue, addMinutes] using hc
      by_cases hg : (emitPomodoro s st).groupCount = s.group
      · by_cases hw : (!willContinue (addMinutes (emitPomodoro s st).currentTime (s.longBreak + s.pomodoro))
            (emitPomodoro s st).pomodoroCount (.time t)) = true
        · exact ⟨emitPomodoro s st, by simp [genLoop, hc, hg, hw]⟩
        · have hmeas : (t + 1 - ((applyLongBreak s (emitPomodoro s st)).currentTime + s.pomodoro)).toNat < k := by
            simp only [applyLongBreak, emitPomodoro, addMinutes]
            omega
          obtain ⟨r, hr⟩ := ih _ hmeas
          exact ⟨r, by simp [genLoop, hc, hg, hw, hr]⟩
      · by_cases hw : (!willContinue (addMinutes (emitPomodoro s st).currentTime (s.pomodoro + s.shortBreak))
            (emitPomodoro s st).pomodoroCount (.time t)) = true
        · exact ⟨emitPomodoro s st, by simp [genLoop, hc, hg, hw]⟩
        · have hmeas : (t + 1 - ((applyShortBreak s (emitPomodoro s st)).currentTime + s.pomodoro)).toNat < k := by
            simp only [applyShortBreak, emitPomodoro, addMinutes]
            omega
          obtain ⟨r, hr⟩ := ih _ hmeas
          exact ⟨r, by simp [genLoop, hc, hg, hw, hr]⟩
    · exact ⟨st, by simp [genLoop, hc]⟩

/-- C5: for every start time, end condition, and settings with a positive
pomodoro length and nonnegative break lengths, the generation loop
terminates — some finite fuel completes the run. -/
theorem generation_terminates (s : PomodoroSettings) (endC : TimeOrCount) (startT : Int)
    (hp : 0 < s.pomodoro) (hs : 0 ≤ s.shortBreak) (hl : 0 ≤ s.longBreak) :
    ∃ (fuel : Nat) (r : GenState), runPlan s endC fuel startT = some r := by
  cases endC with
  | count n =>
      obtain ⟨r, hr⟩ := genLoop_terminates_count s n
        ((n + 1 - (initState startT).pomodoroCount).toNat + 1) (initState startT) (by omega)
      exact ⟨_, r, hr⟩
  | time t =>
      obtain ⟨r, hr⟩ := genLoop_terminates_time s t hp hs hl
        ((t + 1 - ((initState startT).currentTime + s.pomodoro)).toNat + 1) (initState startT) (by omega)
      exact ⟨_, r, hr⟩

/-- C5 witness at concrete inputs. -/
theorem generation_terminates_witness :
    (0 : Int) < DEFAULT_SETTINGS.pomodoro ∧ (0 : Int) ≤ DEFAULT_SETTINGS.shortBreak ∧
    (0 : Int) ≤ DEFAULT_SETTINGS.longBreak ∧
    ∃ (fuel : Nat) (r : GenState), runPlan DEFAULT_SETTINGS (.count 2) fuel 0 = some r :=
  ⟨by decide, by decide, by decide,
    generation_terminates DEFAULT_SETTINGS (.count 2) 0 (by decide) (by decide) (by decide)⟩

/-- Filtering away break lines ignores an optionally appended Long Break
line. -/
theorem filter_optional_longRest (b : Bool) (l : List PlanLine) (a c : Int) :
    ((if b then l ++ [PlanLine.longRest a c] else l).filter isPomodoroLine) =
      l.filter isPomodoroLine := by
  cases b <;> simp [List.filter_append, isPomodoroLine]

/-- Filtering away break lines ignores an optionally appended Short Break
line. -/
theorem filter_optional_shortRest (b : Bool) (l : List PlanLine) (a c : Int) :
    ((if b then l ++ [PlanLine.shortRest a c] else l).filter isPomodoroLine) =
      l.filter isPomodoroLine := by
  cases b <;> simp [List.filter_append, isPomodoroLine]

/-- Bisimulation of two loop runs whose settings agree on every numeric
field: the break-line toggles (and the stats toggle) influence neither
control flow nor any state component other than which break lines are
recorded, so the `toggleView` projections evolve identically. -/
theorem genLoop_toggle_agnostic (p1 p2 : PomodoroSettings) (endC : TimeOrCount)
    (hpom : p1.pomodoro = p2.pomodoro) (hsb : p1.shortBreak = p2.shortBreak)
    (hlb : p1.longBreak = p2.longBreak) (hgr : p1.group = p2.group) :
    ∀ (fuel : Nat) (st st' : GenState),
      st.currentTime = st'.currentTime → st.groupCount = st'.groupCount →
      st.totalRestTime = st'.totalRestTime → st.pomodoroCount = st'.pomodoroCount →
      st.lines.filter isPomodoroLine = st'.lines.filter isPomodoroLine →
      Option.map toggleView (genLoop p1 endC fuel st) =
        Option.map toggleView (genLoop p2 endC fuel st') := by
  intro fuel
  induction fuel with
  | zero => intro st st' _ _ _ _ _; simp [genLoop]
  | succ k ih =>
    intro st st' hct hgc htr hpc hfl
    simp only [genLoop]
    by_cases hc : willContinue (addMinutes st.currentTime p1.pomodoro) st.pomodoroCount endC = true
    · have hc2 : willContinue (addMinutes st'.currentTime p2.pomodoro) st'.pomodoroCount endC = true := by
        rw [← hct, ← hpom, ← hpc]
        exact hc
      rw [if_pos hc, if_pos hc2]
      have e1 : (emitPomodoro p1 st).currentTime = (emitPomodoro p2 st').currentTime := by
        simp [emitPomodoro, addMinutes, hct, hpom]
      have e2 : (emitPomodoro p1 st).groupCount = (emitPomodoro p2 st').groupCount := by
        simp [emitPomodoro, hgc]
      have e3 : (emitPomodoro p1 st).totalRestTime = (emitPomodoro p2 st').totalRestTime := by
        simp [emitPomodoro, htr]
      have e4 : (emitPomodoro p1 st).pomodoroCount = (emitPomodoro p2 st').pomodoroCount := by
        simp [emitPomodoro, hpc]
      have e5 : (emitPomodoro p1 st).lines.filter isPomodoroLine =
          (emitPomodoro p2 st').lines.filter isPomodoroLine := by
        simp [emitPomodoro, List.filter_append, isPomodoroLine, hfl, hpc, hct, hpom, addMinutes]
      by_cases hg : (emitPomodoro p1 st).groupCount = p1.group
      · have hg2 : (emitPomodoro p2 st').groupCount = p2.group := by
          rw [← e2, ← hgr]
          exact hg
        rw [if_pos hg, if_pos hg2]
        by_cases hw : (!willContinue (addMinutes (emitPomodoro p1 st).currentTime (p1.longBreak + p1.pomodoro))
            (emitPomodoro p1 st).pomodoroCount endC) = true
        · have hw2 : (!willContinue (addMinutes (emitPomodoro p2 st').currentTime (p2.longBreak + p2.pomodoro))
              (emitPomodoro p2 st').pomodoroCount endC) = true := by
            rw [← e1, ← e4, ← hlb, ← hpom]
            exact hw
          rw [if_pos hw, if_pos hw2]
          simp [toggleView, e1, e2, e3, e4, e5]
        · have hw2 : ¬ (!willContinue (addMinutes (emitPomodoro p2 st').currentTime (p2.longBreak + p2.pomodoro))
              (emitPomodoro p2 st').pomodoroCount endC) = true := by
            rw [← e1, ← e4, ← hlb, ← hpom]
            exact hw
          rw [if_neg hw, if_neg hw2]
          apply ih
          · simp [applyLongBreak, addMinutes, e1, hlb]
          · simp [applyLongBreak]
          · simp [applyLongBreak, e3, hlb]
          · simp [applyLongBreak, e4]
          · simp [applyLongBreak, filter_optional_longRest, e5]
      · have hg2 : ¬ (emitPomodoro p2 st').groupCount = p2.group := by
          rw [← e2, ← hgr]
          exact hg
        rw [if_neg hg, if_neg hg2]
        by_cases hw : (!willContinue (addMinutes (emitPomodoro p1 st).currentTime (p1.pomodoro + p1.shortBreak))
            (emitPomodoro p1 st).pomodoroCount endC) = true
        · have hw2 : (!willContinue (addMinutes (emitPomodoro p2 st').currentTime (p2.pomodoro + p2.shortBreak))
              (emitPomodoro p2 st').pomodoroCount endC) = true := by
            rw [← e1, ← e4, ← hsb, ← hpom]
            exact hw
          rw [if_pos hw, if_pos hw2]
          simp [toggleView, e1, e2, e3, e4, e5]
        · have hw2 : ¬ (!willContinue (addMinutes (emitPomodoro p2 st').currentTime (p2.pomodoro + p2.shortBreak))
              (emitPomodoro p2 st').pomodoroCount endC) = true := by
            rw [← e1, ← e4, ← hsb, ← hpom]
            exact hw
          rw [if_neg hw, if_neg hw2]
          apply ih
          · simp [applyShortBreak, addMinutes, e1, hsb]
          · simp [applyShortBreak, e2]
          · simp [applyShortBreak, e3, hsb]
          · simp [applyShortBreak, e4]
          · simp [applyShortBreak, filter_optional_shortRest, e5]
    · have hc2 : ¬ willContinue (addMinutes st'.currentTime p2.pomodoro) st'.pomodoroCount endC = true := by
        rw [← hct, ← hpom, ← hpc]
        exact hc
      rw [if_neg hc, if_neg hc2]
      simp [toggleView, hct, hgc, htr, hpc, hfl]

/-- C10: the break-line toggles affect only which break lines appear in
the output — two runs whose settings agree on all numeric fields end with
the same clock, the same rest total (break durations accumulate even when
their line is suppressed), the same pomodoro counter, the same Pomodoro
lines with identical start/end times, and an identical stats block. -/
theorem toggles_do_not_change_schedule (p1 p2 : PomodoroSettings) (endC : TimeOrCount)
    (fuel : Nat) (startT : Int) (r r' : GenState)
    (hpom : p1.pomodoro = p2.pomodoro) (hsb : p1.shortBreak = p2.shortBreak)
    (hlb : p1.longBreak = p2.longBreak) (hgr : p1.group = p2.group)
    (h : runPlan p1 endC fuel startT = some r)
    (h' : runPlan p2 endC fuel startT = some r') :
    r.currentTime = r'.currentTime ∧ r.totalRestTime = r'.totalRestTime ∧
    r.pomodoroCount = r'.pomodoroCount ∧
    r.lines.filter isPomodoroLine = r'.lines.filter isPomodoroLine ∧
    statsInfo p1 r = statsInfo p2 r' := by
  have hbisim := genLoop_toggle_agnostic p1 p2 endC hpom hsb hlb hgr fuel
    (initState startT) (initState startT) rfl rfl rfl rfl rfl
  rw [runPlan] at h h'
  rw [h, h'] at hbisim
  simp [toggleView] at hbisim
  obtain ⟨ect, _, ert, epc, efl⟩ := hbisim
  refine ⟨ect, ert, epc, efl, ?_⟩
  rw [statsInfo, statsInfo, totalWorkMinutes, totalWorkMinutes, hpom, epc, ert]

/-- C10 witness: the same plan with short-break lines off/on (and
long-break lines on/off). -/
theorem toggles_do_not_change_schedule_witness :
    ({ DEFAULT_SETTINGS with includeShortBreak := false, includeLongBreak := true } : PomodoroSettings).pomodoro =
      ({ DEFAULT_SETTINGS with includeShortBreak := true, includeLongBreak := false } : PomodoroSettings).pomodoro ∧
    runPlan { DEFAULT_SETTINGS with includeShortBreak := false, includeLongBreak := true } (.count 2) 10 0 =
      some { currentTime := 55, groupCount := 2, totalRestTime := 5, pomodoroCount := 3,
             lines := [.pomodoro 1 0 25, .pomodoro 2 30 55] } ∧
    runPlan { DEFAULT_SETTINGS with includeShortBreak := true, includeLongBreak := false } (.count 2) 10 0 =
      some { currentTime := 55, groupCount := 2, totalRestTime := 5, pomodoroCount := 3,
             lines := [.pomodoro 1 0 25, .shortRest 25 30, .pomodoro 2 30 55] } ∧
    (({ currentTime := 55, groupCount := 2, totalRestTime := 5, pomodoroCount := 3,
        lines := [.pomodoro 1 0 25, .pomodoro 2 30 55] } : GenState).currentTime =
      ({ currentTime := 55, groupCount := 2, totalRestTime := 5, pomodoroCount := 3,
         lines := [.pomodoro 1 0 25, .shortRest 25 30, .pomodoro 2 30 55] } : GenState).currentTime ∧
     ({ currentTime := 55, groupCount := 2, totalRestTime := 5, pomodoroCount := 3,
        lines := [.pomodoro 1 0 25, .pomodoro 2 30 55] } : GenState).totalRestTime =
      ({ currentTime := 55, groupCount := 2, totalRestTime := 5, pomodoroCount := 3,
         lines := [.pomodoro 1 0 25, .shortRest 25 30, .pomodoro 2 30 55] } : GenState).totalRestTime ∧
     ({ currentTime := 55, groupCount := 2, totalRestTime := 5, pomodoroCount := 3,
        lines := [.pomodoro 1 0 25, .pomodoro 2 30 55] } : GenState).pomodoroCount =
      ({ currentTime := 55, groupCount := 2, totalRestTime := 5, pomodoroCount := 3,
         lines := [.pomodoro 1 0 25, .shortRest 25 30, .pomodoro 2 30 55] } : GenState).pomodoroCount ∧
     ([PlanLine.pomodoro 1 0 25, PlanLine.pomodoro 2 30 55] : List PlanLine).filter isPomodoroLine =
      ([PlanLine.pomodoro 1 0 25, PlanLine.shortRest 25 30, PlanLine.pomodoro 2 30 55] : List PlanLine).filter isPomodoroLine ∧
     statsInfo { DEFAULT_SETTINGS with includeShortBreak := false, includeLongBreak := true }
        { currentTime := 55, groupCount := 2, totalRestTime := 5, pomodoroCount := 3,
          lines := [.pomodoro 1 0 25, .pomodoro 2 30 55] } =
      statsInfo { DEFAULT_SETTINGS with includeShortBreak := true, includeLongBreak := false }
        { currentTime := 55, groupCount := 2, totalRestTime := 5, pomodoroCount := 3,
          lines := [.pomodoro 1 0 25, .shortRest 25 30, .pomodoro 2 30 55] }) :=
  ⟨rfl, by decide, by decide,
    toggles_do_not_change_schedule
      { DEFAULT_SETTINGS with includeShortBreak := false, includeLongBreak := true }
      { DEFAULT_SETTINGS with includeShortBreak := true, includeLongBreak := false }
      (.count 2) 10 0 _ _ rfl rfl rfl rfl (by decide) (by decide)⟩

/-- The result of `parseTime` depends on the internal clock read only
through its calendar day. -/
theorem parseTime_day_congr (now now' : Int) (h : now.fdiv 1440 = now'.fdiv 1440)
    (ts : String) : parseTime now ts = parseTime now' ts := by
  simp only [parseTime, h]

/-- The result of `parseTimeOrCount` depends on the internal clock read
only through its calendar day. -/
theorem parseTimeOrCount_day_congr (now now' : Int) (h : now.fdiv 1440 = now'.fdiv 1440)
    (ts : String) : parseTimeOrCount now ts = parseTimeOrCount now' ts := by
  simp only [parseTimeOrCount, parseTime_day_congr now now' h ts]

/-- C8 (amended): generation is deterministic given the calendar days of
the two internal clock reads — two invocations with identical start
string, end string, and settings whose internal `Date` reads fall on the
same days produce identical plan text. -/
theorem generation_day_deterministic (now1 now2 now1' now2' : Int)
    (h1 : now1.fdiv 1440 = now1'.fdiv 1440) (h2 : now2.fdiv 1440 = now2'.fdiv 1440)
    (fuel : Nat) (start endSpec : String) (s : PomodoroSettings) :
    generatePomodoroPlan now1 now2 fuel start endSpec s =
      generatePomodoroPlan now1' now2' fuel start endSpec s := by
  simp only [generatePomodoroPlan, parseTime_day_congr now1 now1' h1 start,
    parseTimeOrCount_day_congr now2 now2' h2 endSpec]

/-- C8 witness: two invocations whose clock reads fall on the same day. -/
theorem generation_day_deterministic_witness :
    Int.fdiv 100 1440 = Int.fdiv 200 1440 ∧ Int.fdiv 300 1440 = Int.fdiv 400 1440 ∧
    generatePomodoroPlan 100 300 10 "09:00" "2" DEFAULT_SETTINGS =
      generatePomodoroPlan 200 400 10 "09:00" "2" DEFAULT_SETTINGS :=
  ⟨by decide, by decide,
    generation_day_deterministic 100 300 200 400 (by decide) (by decide) 10 "09:00" "2"
      DEFAULT_SETTINGS⟩

/-- C8 (counterexample): the current time is read inside `parseTime` on
every call, not only for the default start value — when the two internal
clock reads of one invocation straddle midnight (23:59 and 00:00 of the
next day), the end time lands a day later and the produced plan text
differs from that of an invocation whose reads share a day, on identical
start string, end string, and settings. -/
theorem C8_counterexample :
    generatePomodoroPlan 1439 1440 100 "09:00" "09:30" DEFAULT_SETTINGS ≠
      generatePomodoroPlan 0 0 100 "09:00" "09:30" DEFAULT_SETTINGS := by
  decide
